import Mathlib

/-!
Shallow embedding of `src/probability.js`: three estimators
(`ProbabilityCalculator`, `ReliabilityRepository`, `SuggestedMarkupRepository`)
working over a read-only offer store.

Modelling conventions:
* JS numbers are embedded as `ℚ`; the one place the source can produce a JS
  `NaN` result (the coefficient-of-variation division `0/0` in
  `_calculateDataConsistency`) is modelled explicitly with `Option ℚ`
  (`none` = NaN), and the one square root (`Math.sqrt`) is a parameter
  `jsSqrt : ℚ → ℚ` of the reliability functions.
* A fetched offer's nullable columns are `Option` fields; a `null`/`NaN`
  markup is `none` (the source filters both with the same compound guard at
  every use site).
* Each SQL query of the source is one field of `FStore`; a query that raises
  is a field returning `.error ()` (the JS `await` that can throw becomes a
  `match` that propagates the error).
* `Math.random()` and `new Date()` become explicit parameters `rand` and
  `now` of the reliability estimator (the only module that reads them).
-/

/-- One row fetched from the `offers` relation (interface `HistoricalOffer`).
Only the columns the estimators actually read are modelled:
`success` (`offer__success`), `markup` (`calculated_markup_percentage` or the
computed markup column; `none` = SQL NULL / NaN), `qty` (`offer_answer__qty`;
`none` = NULL or a column absent from the query), and `encodingDate`
(`offer__encoding_date` as a millisecond timestamp; `none` = absent). -/
structure HistoricalOffer where
  success : ℤ
  markup : Option ℚ
  qty : Option ℚ
  encodingDate : Option ℚ
deriving DecidableEq

/-- Result of one `await`ed parameterized query: the row list, or `.error ()`
when the query raises. -/
abbrev FetchResult := Except Unit (List HistoricalOffer)

/-- The store, as the family of query results the source can request.  Each
field corresponds to one SQL query of `src/probability.js` (same WHERE
clause, LIMIT and markup column as the named `_fetch...` method). -/
structure FStore where
  /-- `ProbabilityCalculator._fetchCompleteProductCustomerHistory` (LIMIT 20). -/
  probProductCustomerHistory : String → String → FetchResult
  /-- `ProbabilityCalculator._fetchCompleteProductHistory` (LIMIT 30). -/
  probProductHistory : String → FetchResult
  /-- `ProbabilityCalculator._fetchCompleteCustomerHistory` (LIMIT 30). -/
  probCustomerHistory : String → FetchResult
  /-- `ReliabilityRepository._fetchCompleteProductCustomerHistory` (LIMIT 20). -/
  relProductCustomerHistory : String → String → FetchResult
  /-- `ReliabilityRepository._fetchCompleteProductHistory` (LIMIT 30). -/
  relProductHistory : String → FetchResult
  /-- `ReliabilityRepository._fetchCompleteCustomerHistory` (LIMIT 50). -/
  relCustomerHistory : String → FetchResult
  /-- `SuggestedMarkupRepository._fetchProductCustomerHistorySuccess` (LIMIT 10, success = 1). -/
  muProductCustomerHistorySuccess : String → String → FetchResult
  /-- `SuggestedMarkupRepository._fetchGeneralProductHistorySuccess` (LIMIT 20, success = 1). -/
  muGeneralProductHistorySuccess : String → FetchResult
  /-- `SuggestedMarkupRepository._fetchGeneralCustomerHistorySuccess` (LIMIT 20, success = 1). -/
  muGeneralCustomerHistorySuccess : String → FetchResult
  /-- `SuggestedMarkupRepository._fetchCompleteCustomerHistory` (LIMIT 30). -/
  muCompleteCustomerHistory : String → FetchResult

/-- JS `Math.round`: round half toward positive infinity. -/
def jsRound (q : ℚ) : ℤ := ⌊q + 1 / 2⌋

/-- JS `Number(x.toFixed(1))` for a nonnegative `x`: round to one decimal. -/
def toFixed1 (q : ℚ) : ℚ := (jsRound (q * 10) : ℚ) / 10

/-- JS `x || d` for an optional numeric `x`: `d` when `x` is
`undefined`/`null`/`NaN`/`0`, else `x`. -/
def jsOrQ (x : Option ℚ) (d : ℚ) : ℚ :=
  match x with
  | none => d
  | some q => if q = 0 then d else q

/-- Sum of `charCodeAt` over a string, as in
`s.split('').reduce((sum, char) => sum + char.charCodeAt(0), 0)`. -/
def charSum (s : String) : ℕ := s.data.foldl (fun a c => a + c.toNat) 0

/-- Numeric value of a decimal digit character. -/
def digitVal (c : Char) : Option ℕ := if c.isDigit then some (c.toNat - 48) else none

/-- Value of the leading run of digits (stops at the first non-digit). -/
def digitsValue : List Char → ℕ → ℕ
  | [], acc => acc
  | c :: cs, acc =>
    match digitVal c with
    | none => acc
    | some d => digitsValue cs (10 * acc + d)

/-- JS `parseInt(s)`: optional sign, then leading digits; `none` = NaN. -/
def jsParseInt (s : String) : Option ℤ :=
  match s.data with
  | [] => none
  | '-' :: cs =>
    match cs with
    | [] => none
    | c :: _ => (digitVal c).map fun _ => -(digitsValue cs 0 : ℤ)
  | '+' :: cs =>
    match cs with
    | [] => none
    | c :: _ => (digitVal c).map fun _ => (digitsValue cs 0 : ℤ)
  | c :: _ => (digitVal c).map fun _ => (digitsValue s.data 0 : ℤ)

/-- JS `parseInt(s) || 0`: NaN (and 0 itself) collapse to 0. -/
def jsParseIntOr0 (s : String) : ℚ :=
  match jsParseInt s with
  | none => 0
  | some v => (v : ℚ)

/-- Number of records with `success === 1` in a fetched list. -/
def successCount (l : List HistoricalOffer) : ℕ :=
  (l.filter fun h => decide (h.success = 1)).length

/-- Computable stand-in used to instantiate the `Math.sqrt` parameter in
concrete evaluations; exact on perfect squares (the only inputs the concrete
witnesses reach). -/
def ratSqrt (q : ℚ) : ℚ := (Nat.sqrt q.num.toNat : ℚ) / (Nat.sqrt q.den : ℚ)

namespace ProbabilityCalculator

/-- Constant `SIMILAR_MARKUP_THRESHOLD`. -/
def SIMILAR_MARKUP_THRESHOLD : ℚ := 5

/-- The filter `h.markup !== null && !isNaN(h.markup) &&
Math.abs(h.markup - markup) <= threshold` applied to a history. -/
def similarOffers (history : List HistoricalOffer) (markup threshold : ℚ) :
    List HistoricalOffer :=
  history.filter fun h =>
    match h.markup with
    | none => false
    | some m => decide (|m - markup| ≤ threshold)

/-- `ProbabilityCalculator._calculateFallbackProbability` (lines 88-157). -/
def _calculateFallbackProbability (s : FStore) (markup : ℚ)
    (productId customerNr : String) : Except Unit ℚ :=
  match s.probProductHistory productId with
  | .error e => .error e
  | .ok productHistory =>
    match s.probCustomerHistory customerNr with
    | .error e => .error e
    | .ok customerHistory =>
      let combinedHistory := productHistory ++ customerHistory
      if combinedHistory.length = 0 then
        let productIdSum := charSum productId
        let baseVariation : ℚ := ((productIdSum % 25 : ℕ) : ℚ) - 12
        let baseProbability : ℚ := 50 + baseVariation
        let baseProbability :=
          if markup > 35 then baseProbability - (15 + ((productIdSum % 5 : ℕ) : ℚ))
          else if markup > 25 then baseProbability - (5 + ((productIdSum % 5 : ℕ) : ℚ))
          else if markup < 15 then baseProbability + (5 + ((productIdSum % 5 : ℕ) : ℚ))
          else if markup < 10 then baseProbability + (10 + ((productIdSum % 5 : ℕ) : ℚ))
          else baseProbability
        .ok (min 85 (max 15 baseProbability))
      else
        let similarMarkupOffers :=
          similarOffers combinedHistory markup (SIMILAR_MARKUP_THRESHOLD * 2)
        if similarMarkupOffers.length < 3 then
          let productIdSum := charSum productId
          let customerIdSum := charSum customerNr
          let baseVariation : ℚ := (((productIdSum + customerIdSum) % 20 : ℕ) : ℚ) - 10
          let baseProbability : ℚ := 50 + baseVariation
          let baseProbability :=
            if markup > 35 then baseProbability - 15
            else if markup > 25 then baseProbability - 5
            else if markup < 15 then baseProbability + 5
            else if markup < 10 then baseProbability + 10
            else baseProbability
          if combinedHistory.length > 0 then
            let generalSuccessRate : ℚ :=
              (successCount combinedHistory : ℚ) / (combinedHistory.length : ℚ) * 100
            .ok (baseProbability * (0.7 : ℚ) + generalSuccessRate * (0.3 : ℚ))
          else
            .ok (min 85 (max 15 baseProbability))
        else
          .ok ((successCount similarMarkupOffers : ℚ) /
                (similarMarkupOffers.length : ℚ) * 100)

/-- `ProbabilityCalculator._calculateSuccessProbability` (lines 47-83). -/
def _calculateSuccessProbability (s : FStore) (markup : ℚ)
    (productId customerNr : String) (quantity purchasePrice rate : ℚ) :
    Except Unit ℚ :=
  match s.probProductCustomerHistory customerNr productId with
  | .error e => .error e
  | .ok history =>
    if history.length = 0 then
      _calculateFallbackProbability s markup productId customerNr
    else
      let similarMarkupOffers := similarOffers history markup SIMILAR_MARKUP_THRESHOLD
      if similarMarkupOffers.length = 0 then
        _calculateFallbackProbability s markup productId customerNr
      else
        .ok ((successCount similarMarkupOffers : ℚ) /
              (similarMarkupOffers.length : ℚ) * 100)

/-- Public entry point `ProbabilityCalculator.calculateSuccessProbability`
(lines 30-42): no try/catch, so a raising query propagates as `.error`. -/
def calculateSuccessProbability (s : FStore) (customerNr productId : String)
    (markup quantity purchasePrice rate : ℚ) :
    Except Unit ℚ :=
  _calculateSuccessProbability s markup productId customerNr quantity purchasePrice rate

end ProbabilityCalculator

namespace ReliabilityRepository

/-- Constant `MAX_DAYS_FOR_RECENT_DATA`. -/
def MAX_DAYS_FOR_RECENT_DATA : ℚ := 365

/-- The detailed factor breakdown of interface `ReliabilityResult`.
`dataConsistency` is `Option ℚ` because the source's coefficient-of-variation
computation produces a JS `NaN` (modelled as `none`) when the valid markups
have mean 0 and variance 0. -/
structure ReliabilityFactors where
  directHistory : ℚ
  dataRecency : ℚ
  dataConsistency : Option ℚ
  fallbacksUsed : ℚ
deriving DecidableEq

/-- Interface `ReliabilityResult`; `reliability` is `none` when the NaN of a
degenerate consistency computation propagates into `Math.round`. -/
structure ReliabilityResult where
  reliability : Option ℤ
  reliabilityFactors : ReliabilityFactors
deriving DecidableEq

/-- `ReliabilityRepository._calculateDataRecency` (lines 345-377); `now` is
the millisecond clock value of `new Date()` at the call.  In this model every
present `encodingDate` is a valid timestamp, so the source's guard for
unparseable dates (`if (count === 0) return 50`) is kept but never taken. -/
def _calculateDataRecency (now : ℚ) (history : List HistoricalOffer) : ℚ :=
  if history.length = 0 then 0
  else
    let offersWithDates := history.filter fun h => h.encodingDate.isSome
    if offersWithDates.length = 0 then 0
    else
      let ages := offersWithDates.filterMap fun h =>
        h.encodingDate.map fun t => (now - t) / (1000 * 60 * 60 * 24)
      if ages.length = 0 then 50
      else
        let avgAgeDays := ages.sum / (ages.length : ℚ)
        max 0 (100 - avgAgeDays / MAX_DAYS_FOR_RECENT_DATA * 100)

/-- `ReliabilityRepository._calculateDataConsistency` (lines 379-403).
`jsSqrt` stands for `Math.sqrt`.  When the mean of the valid markups is 0 the
JS division yields `±Infinity` (score 0) for positive variance and `NaN`
(modelled `none`) for zero variance. -/
def _calculateDataConsistency (jsSqrt : ℚ → ℚ) (history : List HistoricalOffer) :
    Option ℚ :=
  if history.length < 2 then some 0
  else
    let markups := history.filterMap fun h => h.markup
    if markups.length < 2 then some 0
    else
      let mean := markups.sum / (markups.length : ℚ)
      let variance := (markups.map fun m => (m - mean) ^ 2).sum / (markups.length : ℚ)
      if mean = 0 then
        if variance = 0 then none
        else some 0
      else
        some (max 0 (100 - jsSqrt variance / |mean| * 100 * 2))

/-- The branch on data availability of
`ReliabilityRepository.calculateProductReliability` (lines 258-305), yielding
`(directHistoryScore, dataRecencyScore, dataConsistencyScore, fallbacksUsed)`.
`rand` is the value of `Math.random()` in the customer-history-only branch.
In the no-history-at-all branch `fallbacksUsed` keeps the value 100 it was
assigned on entering the no-pair-history branch. -/
def relFactors (jsSqrt : ℚ → ℚ) (s : FStore) (customerNr productId : String)
    (now rand : ℚ) : Except Unit (ℚ × ℚ × Option ℚ × ℚ) :=
  match s.relProductCustomerHistory customerNr productId with
  | .error e => .error e
  | .ok productCustomerHistory =>
    if productCustomerHistory.length = 0 then
      match s.relProductHistory productId with
      | .error e => .error e
      | .ok productHistory =>
        if productHistory.length > 0 then
          .ok (0, _calculateDataRecency now productHistory,
               _calculateDataConsistency jsSqrt productHistory,
               max 40 (80 - (productHistory.length : ℚ) * 3))
        else
          match s.relCustomerHistory customerNr with
          | .error e => .error e
          | .ok customerHistory =>
            if customerHistory.length > 0 then
              .ok (0, _calculateDataRecency now customerHistory * (0.5 : ℚ),
                   (_calculateDataConsistency jsSqrt customerHistory).map
                     (· * (0.3 : ℚ)),
                   85 - (⌊rand * 10⌋ : ℚ))
            else
              let productIdSum := charSum productId
              .ok ((5 + (productIdSum % 15 : ℕ) : ℕ),
                   (10 + (productIdSum % 20 : ℕ) : ℕ),
                   some ((5 + (productIdSum % 20 : ℕ) : ℕ) : ℚ),
                   100)
    else
      .ok (min 100 ((productCustomerHistory.length : ℚ) * 20),
           _calculateDataRecency now productCustomerHistory,
           _calculateDataConsistency jsSqrt productCustomerHistory,
           0)

/-- The fixed degraded result of the catch branch (lines 329-341). -/
def defaultReliabilityResult : ReliabilityResult :=
  { reliability := some 20
    reliabilityFactors :=
      { directHistory := 20, dataRecency := 20, dataConsistency := some 20,
        fallbacksUsed := 20 } }

/-- Public entry point `ReliabilityRepository.calculateProductReliability`
(lines 255-342): assembles the factors; `catch` converts any query error into
the fixed degraded all-20 result. -/
def calculateProductReliability (jsSqrt : ℚ → ℚ) (s : FStore)
    (customerNr productId : String) (now rand : ℚ) : ReliabilityResult :=
  match relFactors jsSqrt s customerNr productId now rand with
  | .ok (directHistoryScore, dataRecencyScore, dataConsistencyScore, fallbacksUsed) =>
    { reliability := dataConsistencyScore.map fun c =>
        jsRound (directHistoryScore * (0.7 : ℚ) + dataRecencyScore * (0.2 : ℚ) +
                 c * (0.1 : ℚ))
      reliabilityFactors :=
        { directHistory := directHistoryScore
          dataRecency := dataRecencyScore
          dataConsistency := dataConsistencyScore
          fallbacksUsed := 100 - fallbacksUsed } }
  | .error _ => defaultReliabilityResult

end ReliabilityRepository

namespace SuggestedMarkupRepository

/-- Constant `DEFAULT_MARKUP`. -/
def DEFAULT_MARKUP : ℚ := 20

/-- Constant `MIN_MARKUP`. -/
def MIN_MARKUP : ℚ := 1

/-- Constant `MAX_MARKUP`. -/
def MAX_MARKUP : ℚ := 1000

/-- Constant `DEFAULT_AVG_QUANTITY`. -/
def DEFAULT_AVG_QUANTITY : ℚ := 10

/-- Interface `MarkupFactors`; the optional fields are set only when the
corresponding adjustment is nonzero (`competitiveAdjustment` and
`urgencyFactor` are declared in the source but never assigned). -/
structure MarkupFactors where
  baseMarkup : ℚ
  clientHistory : Option ℚ
  volumeDiscount : Option ℚ
deriving DecidableEq

/-- Interface `MarkupResult`. -/
structure MarkupResult where
  suggestedMarkup : ℚ
  probability : ℤ
  historyCount : ℕ
  markupFactors : MarkupFactors
deriving DecidableEq

/-- `SuggestedMarkupRepository._computeWeightedMarkup` (lines 640-662):
sort the valid markups ascending, take the element at index
`Math.floor(length / 2)` as the median, and return
`max(median, mean) + 2`. -/
def _computeWeightedMarkup (history : List HistoricalOffer) : ℚ :=
  let validMarkups := (history.filterMap fun h => h.markup).insertionSort (· ≤ ·)
  if validMarkups.length = 0 then DEFAULT_MARKUP
  else
    let medianIndex := validMarkups.length / 2
    let medianMarkup := validMarkups.getD medianIndex 0
    let averageMarkup := validMarkups.sum / (validMarkups.length : ℚ)
    max medianMarkup averageMarkup + 2

/-- `SuggestedMarkupRepository._calculateClientHistoryAdjustment`
(lines 604-626). -/
def _calculateClientHistoryAdjustment (s : FStore) (customerNr : String) :
    Except Unit ℚ :=
  match s.muCompleteCustomerHistory customerNr with
  | .error e => .error e
  | .ok allHistory =>
    if allHistory.length = 0 then .ok 0
    else
      let successRate : ℚ := (successCount allHistory : ℚ) / (allHistory.length : ℚ)
      if successRate > (0.7 : ℚ) then
        .ok (min 5 ((jsRound (successRate * 5) : ℤ) : ℚ))
      else if successRate < (0.3 : ℚ) ∧ allHistory.length > 3 then
        .ok (-2)
      else
        .ok 0

/-- `SuggestedMarkupRepository._calculateVolumeDiscount` (lines 628-638). -/
def _calculateVolumeDiscount (quantity : ℚ) (history : List HistoricalOffer) : ℚ :=
  if history.length = 0 then 0
  else
    let avgQuantity := (history.map fun h => jsOrQ h.qty 0).sum / (history.length : ℚ)
    if quantity > avgQuantity * 2 then -5
    else if quantity > avgQuantity * (1.5 : ℚ) then -3
    else if quantity < avgQuantity * (0.5 : ℚ) then 2
    else 0

/-- `SuggestedMarkupRepository._adjustForQuantity` (lines 712-725).  When the
average historical quantity is 0 the JS ratio is `±Infinity` (or `NaN` for a
zero current quantity); the explicit branch mirrors those comparisons. -/
def _adjustForQuantity (currentQty : ℚ) (history : List HistoricalOffer)
    (baseMarkup : ℚ) : ℚ :=
  let avgHistoricalQty :=
    if history.length > 0 then
      (history.map fun h => jsOrQ h.qty 1).sum / (history.length : ℚ)
    else DEFAULT_AVG_QUANTITY
  if avgHistoricalQty = 0 then
    if currentQty > 0 then baseMarkup * (0.9 : ℚ)
    else if currentQty < 0 then baseMarkup * (1.1 : ℚ)
    else baseMarkup
  else
    let r := currentQty / avgHistoricalQty
    if r > 2 then baseMarkup * (0.9 : ℚ)
    else if r < (0.5 : ℚ) then baseMarkup * (1.1 : ℚ)
    else baseMarkup

/-- `SuggestedMarkupRepository._combineFallbackHistories` (lines 664-710). -/
def _combineFallbackHistories (productHistory customerHistory : List HistoricalOffer)
    (currentQty : ℚ) (productId : String) : ℚ :=
  let productMarkup :=
    if productHistory.length > 0 then _computeWeightedMarkup productHistory
    else DEFAULT_MARKUP
  let customerMarkup :=
    if customerHistory.length > 0 then _computeWeightedMarkup customerHistory
    else DEFAULT_MARKUP
  let weightProduct : ℚ := if productHistory.length > 0 then (0.7 : ℚ) else 0
  let weightCustomer : ℚ := if customerHistory.length > 0 then (0.3 : ℚ) else 0
  let totalWeight := weightProduct + weightCustomer
  let baseMarkup :=
    if totalWeight > 0 then
      (productMarkup * weightProduct + customerMarkup * weightCustomer) / totalWeight
    else if productId ≠ "" then
      let productIdSum := charSum productId
      let variation : ℚ := ((productIdSum % 20 : ℕ) : ℚ) - 7
      let lastTwoDigits := jsParseIntOr0 (productId.takeRight 2)
      let categoryAdjustment : ℚ :=
        if lastTwoDigits < 20 then -3
        else if lastTwoDigits > 80 then 5
        else 0
      max (MIN_MARKUP + 2)
        (min (MAX_MARKUP - 5) (DEFAULT_MARKUP + variation + categoryAdjustment))
    else DEFAULT_MARKUP
  _adjustForQuantity currentQty (productHistory ++ customerHistory) baseMarkup

/-- The try-block of `SuggestedMarkupRepository.calculateSuggestedMarkup`
(lines 514-587); any raising query propagates to the catch. -/
def muBody (s : FStore) (customerNr productId : String)
    (quantity purchasePrice rate : ℚ) : Except Unit MarkupResult :=
  match s.muProductCustomerHistorySuccess customerNr productId with
  | .error e => .error e
  | .ok history =>
    if history.length > 0 then
      let markup1 := _computeWeightedMarkup history
      match _calculateClientHistoryAdjustment s customerNr with
      | .error e => .error e
      | .ok clientAdjustment =>
        let markup2 := if clientAdjustment ≠ 0 then markup1 + clientAdjustment else markup1
        let volumeDisc := _calculateVolumeDiscount quantity history
        let markup3 := if volumeDisc ≠ 0 then markup2 + volumeDisc else markup2
        match ProbabilityCalculator._calculateSuccessProbability s markup3 productId
            customerNr quantity purchasePrice rate with
        | .error e => .error e
        | .ok probability =>
          let finalMarkup := max MIN_MARKUP (min MAX_MARKUP markup3)
          .ok { suggestedMarkup := toFixed1 finalMarkup
                probability := jsRound probability
                historyCount := history.length
                markupFactors :=
                  { baseMarkup := markup1
                    clientHistory :=
                      if clientAdjustment ≠ 0 then some clientAdjustment else none
                    volumeDiscount := if volumeDisc ≠ 0 then some volumeDisc else none } }
    else
      match s.muGeneralProductHistorySuccess productId with
      | .error e => .error e
      | .ok generalProductHistory =>
        match s.muGeneralCustomerHistorySuccess customerNr with
        | .error e => .error e
        | .ok generalCustomerHistory =>
          let historyCount := generalProductHistory.length + generalCustomerHistory.length
          let markup1 := _combineFallbackHistories generalProductHistory
            generalCustomerHistory quantity productId
          let volumeDisc :=
            if historyCount > 0 then
              _calculateVolumeDiscount quantity
                (generalProductHistory ++ generalCustomerHistory)
            else 0
          let markup2 :=
            if historyCount > 0 ∧ volumeDisc ≠ 0 then markup1 + volumeDisc else markup1
          match ProbabilityCalculator._calculateFallbackProbability s markup2 productId
              customerNr with
          | .error e => .error e
          | .ok probability =>
            let finalMarkup := max MIN_MARKUP (min MAX_MARKUP markup2)
            .ok { suggestedMarkup := toFixed1 finalMarkup
                  probability := jsRound probability
                  historyCount := historyCount
                  markupFactors :=
                    { baseMarkup := markup1
                      clientHistory := none
                      volumeDiscount :=
                        if historyCount > 0 ∧ volumeDisc ≠ 0 then some volumeDisc
                        else none } }

/-- The fixed default result of the catch branch (lines 588-599). -/
def defaultMarkupResult : MarkupResult :=
  { suggestedMarkup := DEFAULT_MARKUP
    probability := 50
    historyCount := 0
    markupFactors := { baseMarkup := DEFAULT_MARKUP, clientHistory := none,
                       volumeDiscount := none } }

/-- Public entry point `SuggestedMarkupRepository.calculateSuggestedMarkup`
(lines 505-600): the catch converts any internal failure to the fixed
default result. -/
def calculateSuggestedMarkup (s : FStore) (customerNr productId : String)
    (quantity purchasePrice rate : ℚ) : MarkupResult :=
  match muBody s customerNr productId quantity purchasePrice rate with
  | .ok r => r
  | .error _ => defaultMarkupResult

end SuggestedMarkupRepository

/-- The weighted-markup algorithm as the spec words it: identical to
`SuggestedMarkupRepository._computeWeightedMarkup` except that the median of
an even-length list is the LOWER middle element (index `(n - 1) / 2`), kept
here for comparison with the code's `Math.floor(n / 2)` index. -/
def weightedMarkupLowerMedianSpec (history : List HistoricalOffer) : ℚ :=
  let validMarkups := (history.filterMap fun h => h.markup).insertionSort (· ≤ ·)
  if validMarkups.length = 0 then SuggestedMarkupRepository.DEFAULT_MARKUP
  else
    let medianMarkup := validMarkups.getD ((validMarkups.length - 1) / 2) 0
    let averageMarkup := validMarkups.sum / (validMarkups.length : ℚ)
    max medianMarkup averageMarkup + 2

/-! Concrete fixtures used by the witnesses and counterexamples. -/

/-- An offer with no markup, no quantity and no date. -/
def offerBlank : HistoricalOffer :=
  { success := 1, markup := none, qty := none, encodingDate := none }

/-- An unsuccessful offer with markup 100. -/
def offerM100 : HistoricalOffer :=
  { success := 0, markup := some 100, qty := none, encodingDate := none }

/-- A successful offer with markup 30. -/
def offerM30 : HistoricalOffer :=
  { success := 1, markup := some 30, qty := none, encodingDate := none }

/-- A successful offer dated at millisecond timestamp 0. -/
def offerD0 : HistoricalOffer :=
  { success := 1, markup := none, qty := none, encodingDate := some 0 }

/-- A successful offer dated 365 days after timestamp 0. -/
def offerFut : HistoricalOffer :=
  { success := 1, markup := none, qty := none,
    encodingDate := some (365 * (1000 * 60 * 60 * 24)) }

/-- A store whose every query returns an empty result set. -/
def emptyStore : FStore :=
  { probProductCustomerHistory := fun _ _ => .ok []
    probProductHistory := fun _ => .ok []
    probCustomerHistory := fun _ => .ok []
    relProductCustomerHistory := fun _ _ => .ok []
    relProductHistory := fun _ => .ok []
    relCustomerHistory := fun _ => .ok []
    muProductCustomerHistorySuccess := fun _ _ => .ok []
    muGeneralProductHistorySuccess := fun _ => .ok []
    muGeneralCustomerHistorySuccess := fun _ => .ok []
    muCompleteCustomerHistory := fun _ => .ok [] }

/-- A store whose every query raises. -/
def errStore : FStore :=
  { probProductCustomerHistory := fun _ _ => .error ()
    probProductHistory := fun _ => .error ()
    probCustomerHistory := fun _ => .error ()
    relProductCustomerHistory := fun _ _ => .error ()
    relProductHistory := fun _ => .error ()
    relCustomerHistory := fun _ => .error ()
    muProductCustomerHistorySuccess := fun _ _ => .error ()
    muGeneralProductHistorySuccess := fun _ => .error ()
    muGeneralCustomerHistorySuccess := fun _ => .error ()
    muCompleteCustomerHistory := fun _ => .error () }

/-- A store with one direct pair record for the reliability estimator. -/
def pairStore : FStore :=
  { emptyStore with relProductCustomerHistory := fun _ _ => .ok [offerBlank] }

/-- A store with customer-only history for the reliability estimator (the
branch that reads `Math.random()`). -/
def custStore : FStore :=
  { emptyStore with relCustomerHistory := fun _ => .ok [offerBlank] }

/-- A store whose single pair record is dated 365 days in the future of
clock value 0. -/
def futStore : FStore :=
  { emptyStore with relProductCustomerHistory := fun _ _ => .ok [offerFut] }

/-- Pair history of four offers with markups 20, 21, 19, 18 — three of them
successful. -/
def st4History : List HistoricalOffer :=
  [{ success := 1, markup := some 20, qty := none, encodingDate := none },
   { success := 1, markup := some 21, qty := none, encodingDate := none },
   { success := 1, markup := some 19, qty := none, encodingDate := none },
   { success := 0, markup := some 18, qty := none, encodingDate := none }]

/-- A store holding `st4History` as the probability pair history. -/
def st4Store : FStore :=
  { emptyStore with probProductCustomerHistory := fun _ _ => .ok st4History }

/-- A store whose product history holds one unsuccessful far-markup offer, so
the probability fallback takes the sparse-data branch. -/
def sparseStore : FStore :=
  { emptyStore with probProductHistory := fun _ => .ok [offerM100] }

/-- Two offers with markups 10 and 20: even count, mean 15, upper-middle
sorted element 20, lower-middle 10. -/
def twoMarkupHistory : List HistoricalOffer :=
  [{ success := 1, markup := some 10, qty := none, encodingDate := none },
   { success := 1, markup := some 20, qty := none, encodingDate := none }]

/-! Helper lemmas. -/

theorem ratSqrt_nonneg (q : ℚ) : 0 ≤ ratSqrt q := by
  unfold ratSqrt
  positivity

theorem successCount_le_length (l : List HistoricalOffer) :
    successCount l ≤ l.length :=
  List.length_filter_le _ _

theorem ratio100_nonneg (a n : ℕ) : 0 ≤ (a : ℚ) / (n : ℚ) * 100 := by positivity

theorem ratio100_le_100 (a n : ℕ) (h : a ≤ n) : (a : ℚ) / (n : ℚ) * 100 ≤ 100 := by
  rcases Nat.eq_zero_or_pos n with hn | hn
  · have : a = 0 := by omega
    subst this hn
    norm_num
  · have h1 : (a : ℚ) / (n : ℚ) ≤ 1 := by
      rw [div_le_one (by exact_mod_cast hn)]
      exact_mod_cast h
    nlinarith

/-! Claim theorems. -/

theorem length_filterMap_ages (now : ℚ) (l : List HistoricalOffer)
    (h : ∀ o ∈ l, o.encodingDate.isSome) :
    (l.filterMap fun o =>
      o.encodingDate.map fun t => (now - t) / (1000 * 60 * 60 * 24)).length =
      l.length := by
  induction l with
  | nil => rfl
  | cons a l ih =>
    obtain ⟨t, ht⟩ := Option.isSome_iff_exists.mp (h a (List.mem_cons_self a l))
    simp only [List.filterMap_cons, ht, Option.map_some', List.length_cons]
    rw [ih fun o ho => h o (List.mem_cons_of_mem _ ho)]

/-- C1, counterexample: the public probability entry point has no try/catch,
so a store whose pair-history query raises makes the call return the error to
the caller instead of a degraded default — the claimed totality fails. -/
theorem claim_C1_counterexample :
    ProbabilityCalculator.calculateSuccessProbability errStore "C" "P" 20 1 0 1 =
      .error () := rfl

/-- C1, amended: only the reliability and markup entry points are total
against raising queries — each converts any internal failure into its fixed
degraded default result — while `calculateSuccessProbability` propagates. -/
theorem claim_C1_amended (jsSqrt : ℚ → ℚ) (s : FStore)
    (customerNr productId : String) (now rand quantity purchasePrice rate : ℚ) :
    (∀ e, ReliabilityRepository.relFactors jsSqrt s customerNr productId now rand =
        .error e →
      ReliabilityRepository.calculateProductReliability jsSqrt s customerNr productId
          now rand = ReliabilityRepository.defaultReliabilityResult) ∧
    (∀ e, SuggestedMarkupRepository.muBody s customerNr productId quantity
        purchasePrice rate = .error e →
      SuggestedMarkupRepository.calculateSuggestedMarkup s customerNr productId
          quantity purchasePrice rate = SuggestedMarkupRepository.defaultMarkupResult) := by
  constructor
  · intro e he
    unfold ReliabilityRepository.calculateProductReliability
    rw [he]
  · intro e he
    unfold SuggestedMarkupRepository.calculateSuggestedMarkup
    rw [he]

/-- C1, witness: on the all-raising store both catching entry points return
their fixed defaults. -/
theorem claim_C1_witness :
    ReliabilityRepository.calculateProductReliability ratSqrt errStore "C" "P" 0 0 =
        ReliabilityRepository.defaultReliabilityResult ∧
    SuggestedMarkupRepository.calculateSuggestedMarkup errStore "C" "P" 1 0 1 =
        SuggestedMarkupRepository.defaultMarkupResult :=
  ⟨(claim_C1_amended ratSqrt errStore "C" "P" 0 0 1 0 1).1 () rfl,
   (claim_C1_amended ratSqrt errStore "C" "P" 0 0 1 0 1).2 () rfl⟩

/-- C2, counterexample: with an unchanged store (customer-only history) and
identical arguments, two reliability calls differing only in the
`Math.random()` draw return different results — the `fallbacksUsed` factor is
15 for draw 0 and 20 for draw 1/2, so the estimators are not free of true
randomness. -/
theorem claim_C2_counterexample :
    ReliabilityRepository.calculateProductReliability ratSqrt custStore "C" "P" 0 0 ≠
    ReliabilityRepository.calculateProductReliability ratSqrt custStore "C" "P" 0
      (1 / 2) := by
  intro h
  have h2 := congrArg (fun r => r.reliabilityFactors.fallbacksUsed) h
  norm_num [ReliabilityRepository.calculateProductReliability,
    ReliabilityRepository.relFactors, custStore, emptyStore,
    ReliabilityRepository._calculateDataRecency,
    ReliabilityRepository._calculateDataConsistency, offerBlank] at h2

/-- C2, amended: with the clock and the random draw made explicit inputs, the
probability and markup estimators read neither, and the reliability
estimator's result is independent of the random draw whenever direct pair
history exists (the draw is read only in the customer-history-only fallback
branch). -/
theorem claim_C2_amended (jsSqrt : ℚ → ℚ) (s : FStore)
    (customerNr productId : String) (now r1 r2 : ℚ) (l : List HistoricalOffer)
    (hl : s.relProductCustomerHistory customerNr productId = .ok l) (hne : l ≠ []) :
    ReliabilityRepository.calculateProductReliability jsSqrt s customerNr productId
        now r1 =
    ReliabilityRepository.calculateProductReliability jsSqrt s customerNr productId
        now r2 := by
  unfold ReliabilityRepository.calculateProductReliability
    ReliabilityRepository.relFactors
  rw [hl]
  have h0 : l.length ≠ 0 := by simpa [List.length_eq_zero] using hne
  simp [h0]

/-- C2, witness: with one direct pair record, draws 0 and 1/2 give the same
result. -/
theorem claim_C2_witness :
    ReliabilityRepository.calculateProductReliability ratSqrt pairStore "C" "P" 0 0 =
    ReliabilityRepository.calculateProductReliability ratSqrt pairStore "C" "P" 0
      (1 / 2) :=
  claim_C2_amended ratSqrt pairStore "C" "P" 0 0 (1 / 2) [offerBlank] rfl
    (by decide)

/-- C4: with non-empty pair history and at least one valid markup within the
±5 threshold of the proposed markup, the returned probability is 100 times
the successful similar records over all similar records. -/
theorem claim_C4 (s : FStore) (customerNr productId : String)
    (markup quantity purchasePrice rate : ℚ) (l : List HistoricalOffer)
    (hl : s.probProductCustomerHistory customerNr productId = .ok l) (hne : l ≠ [])
    (hsim : ProbabilityCalculator.similarOffers l markup
      ProbabilityCalculator.SIMILAR_MARKUP_THRESHOLD ≠ []) :
    ProbabilityCalculator.calculateSuccessProbability s customerNr productId markup
        quantity purchasePrice rate =
      .ok (100 * (successCount (ProbabilityCalculator.similarOffers l markup
              ProbabilityCalculator.SIMILAR_MARKUP_THRESHOLD) : ℚ) /
            ((ProbabilityCalculator.similarOffers l markup
              ProbabilityCalculator.SIMILAR_MARKUP_THRESHOLD).length : ℚ)) := by
  unfold ProbabilityCalculator.calculateSuccessProbability
    ProbabilityCalculator._calculateSuccessProbability
  rw [hl]
  have h0 : l.length ≠ 0 := by simpa [List.length_eq_zero] using hne
  have h1 : (ProbabilityCalculator.similarOffers l markup
      ProbabilityCalculator.SIMILAR_MARKUP_THRESHOLD).length ≠ 0 := by
    simpa [List.length_eq_zero] using hsim
  simp only [h0, h1, if_false, ite_false]
  ring_nf

/-- C4, witness: four similar records with three successes at proposed markup
20 yield exactly 75. -/
theorem claim_C4_witness :
    ProbabilityCalculator.calculateSuccessProbability st4Store "C" "P" 20 1 0 1 =
      .ok 75 := by
  have hsim : ProbabilityCalculator.similarOffers st4History 20
      ProbabilityCalculator.SIMILAR_MARKUP_THRESHOLD = st4History := by
    norm_num [ProbabilityCalculator.similarOffers, st4History,
      ProbabilityCalculator.SIMILAR_MARKUP_THRESHOLD, List.filter]
  rw [claim_C4 st4Store "C" "P" 20 1 0 1 st4History rfl (List.cons_ne_nil _ _)
    (by rw [hsim]; exact List.cons_ne_nil _ _)]
  rw [hsim]
  norm_num [st4History, successCount, List.filter]

/-- C5, counterexample: on a two-record history with markups 10 and 20 the
code's median index `Math.floor(n / 2)` picks the UPPER middle element (20),
giving 22, while the claimed lower-middle median would give 17. -/
theorem claim_C5_counterexample :
    SuggestedMarkupRepository._computeWeightedMarkup twoMarkupHistory = 22 ∧
    weightedMarkupLowerMedianSpec twoMarkupHistory = 17 ∧
    SuggestedMarkupRepository._computeWeightedMarkup twoMarkupHistory ≠
      weightedMarkupLowerMedianSpec twoMarkupHistory := by
  have h1 : SuggestedMarkupRepository._computeWeightedMarkup twoMarkupHistory = 22 := by
    norm_num [SuggestedMarkupRepository._computeWeightedMarkup, twoMarkupHistory,
      List.insertionSort, List.orderedInsert, List.getD, List.get?, max_def]
  have h2 : weightedMarkupLowerMedianSpec twoMarkupHistory = 17 := by
    norm_num [weightedMarkupLowerMedianSpec, twoMarkupHistory,
      List.insertionSort, List.orderedInsert, List.getD, List.get?, max_def]
  refine ⟨h1, h2, ?_⟩
  rw [h1, h2]
  norm_num

/-- C5, amended: for any history with at least one valid markup, the result
is max(median, mean) + 2 where the median of the ascending sort is its
element at index ⌊n/2⌋ — the UPPER middle one for even counts (the statement
is phrased over any sorted permutation of the valid markups). -/
theorem claim_C5_amended (history : List HistoricalOffer) (sorted : List ℚ)
    (hperm : sorted.Perm (history.filterMap fun h => h.markup))
    (hsorted : sorted.Sorted (· ≤ ·)) (hne : sorted ≠ []) :
    SuggestedMarkupRepository._computeWeightedMarkup history =
      max (sorted.getD (sorted.length / 2) 0) (sorted.sum / (sorted.length : ℚ)) +
        2 := by
  have hs : sorted = (history.filterMap fun h => h.markup).insertionSort (· ≤ ·) :=
    List.eq_of_perm_of_sorted
      (hperm.trans (List.perm_insertionSort _ _).symm) hsorted
      (List.sorted_insertionSort _ _)
  subst hs
  unfold SuggestedMarkupRepository._computeWeightedMarkup
  have h0 : ¬ ((history.filterMap fun h => h.markup).insertionSort (· ≤ ·)).length = 0 :=
    fun hc => hne (List.length_eq_zero.mp hc)
  dsimp only
  rw [if_neg h0]

/-- C5, witness: a single-record history with markup 30 yields 32. -/
theorem claim_C5_witness :
    SuggestedMarkupRepository._computeWeightedMarkup [offerM30] = 32 := by
  have hfm : (List.filterMap (fun h => h.markup) [offerM30]) = [30] := rfl
  rw [claim_C5_amended [offerM30] [30] (by rw [hfm]) (by simp) (by simp)]
  norm_num [List.getD, List.get?, max_def]

/-- C6, counterexample: with no history at all and productId "00" the
directHistory sub-factor is not 5: the character-code sum of "00" is 96 (two
chars of code 48), not 0. -/
theorem claim_C6_counterexample :
    (ReliabilityRepository.calculateProductReliability ratSqrt emptyStore "C" "00" 0
        0).reliabilityFactors.directHistory ≠ 5 := by
  have h96 : charSum "00" = 96 := rfl
  norm_num [ReliabilityRepository.calculateProductReliability,
    ReliabilityRepository.relFactors, emptyStore, h96]

/-- C6, amended: with pair, product and customer history all empty and
productId "00", directHistory equals 5 plus the character-code sum of "00"
modulo 15, i.e. 5 + 96 % 15 = 11. -/
theorem claim_C6_amended (jsSqrt : ℚ → ℚ) (s : FStore) (customerNr : String)
    (now rand : ℚ)
    (hp : s.relProductCustomerHistory customerNr "00" = .ok [])
    (hpr : s.relProductHistory "00" = .ok [])
    (hc : s.relCustomerHistory customerNr = .ok []) :
    (ReliabilityRepository.calculateProductReliability jsSqrt s customerNr "00" now
        rand).reliabilityFactors.directHistory =
      5 + ((charSum "00" % 15 : ℕ) : ℚ) ∧
    (5 + ((charSum "00" % 15 : ℕ) : ℚ)) = 11 := by
  constructor
  · unfold ReliabilityRepository.calculateProductReliability
      ReliabilityRepository.relFactors
    rw [hp, hpr, hc]
    simp
  · have h96 : charSum "00" = 96 := rfl
    norm_num [h96]

/-- C6, witness: the hash branch evaluated on the all-empty store gives 11. -/
theorem claim_C6_witness :
    (ReliabilityRepository.calculateProductReliability ratSqrt emptyStore "C" "00" 0
        0).reliabilityFactors.directHistory = 11 := by
  have h := claim_C6_amended ratSqrt emptyStore "C" 0 0 rfl rfl rfl
  rw [h.1]
  exact h.2

/-- C7: on the non-error path the overall reliability equals
`Math.round(0.7·directHistory + 0.2·dataRecency + 0.1·dataConsistency)` over
the computed sub-factors (with a NaN consistency propagating to a NaN score),
the reported `fallbacksUsed` factor is 100 minus the internal fallback
penalty, and with direct pair history present the directHistory factor is
`min(100, recordCount·20)` with penalty 0. -/
theorem claim_C7 (jsSqrt : ℚ → ℚ) (s : FStore) (customerNr productId : String)
    (now rand dh dr fb : ℚ) (dc : Option ℚ)
    (h : ReliabilityRepository.relFactors jsSqrt s customerNr productId now rand =
      .ok (dh, dr, dc, fb)) :
    (ReliabilityRepository.calculateProductReliability jsSqrt s customerNr productId
        now rand).reliability =
      dc.map (fun c => jsRound ((0.7 : ℚ) * dh + (0.2 : ℚ) * dr + (0.1 : ℚ) * c)) ∧
    (ReliabilityRepository.calculateProductReliability jsSqrt s customerNr productId
        now rand).reliabilityFactors.fallbacksUsed = 100 - fb ∧
    (∀ l, s.relProductCustomerHistory customerNr productId = .ok l → l ≠ [] →
      dh = min 100 ((l.length : ℚ) * 20) ∧ fb = 0) := by
  refine ⟨?_, ?_, ?_⟩
  · unfold ReliabilityRepository.calculateProductReliability
    rw [h]
    cases dc with
    | none => rfl
    | some c =>
      simp only [Option.map_some']
      congr 1
      unfold jsRound
      ring_nf
  · unfold ReliabilityRepository.calculateProductReliability
    rw [h]
  · intro l hl hne
    unfold ReliabilityRepository.relFactors at h
    rw [hl] at h
    dsimp only at h
    have h0 : ¬ l.length = 0 := fun hc => hne (List.length_eq_zero.mp hc)
    rw [if_neg h0] at h
    simp only [Except.ok.injEq, Prod.mk.injEq] at h
    exact ⟨h.1.symm, h.2.2.2.symm⟩

/-- C7, witness: one direct pair record gives directHistory 20, recency 0,
consistency 0, penalty 0 — reliability round(14) = 14 and fallbacksUsed
factor 100. -/
theorem claim_C7_witness :
    (ReliabilityRepository.calculateProductReliability ratSqrt pairStore "C" "P" 0
        0).reliability = some 14 ∧
    (ReliabilityRepository.calculateProductReliability ratSqrt pairStore "C" "P" 0
        0).reliabilityFactors.fallbacksUsed = 100 := by
  have h := claim_C7 ratSqrt pairStore "C" "P" 0 0 (min 100 ((1 : ℚ) * 20)) 0 0
    (some 0)
    (by norm_num [ReliabilityRepository.relFactors, pairStore, emptyStore,
      ReliabilityRepository._calculateDataRecency,
      ReliabilityRepository._calculateDataConsistency, offerBlank, min_def])
  refine ⟨?_, ?_⟩
  · rw [h.1]
    norm_num [jsRound, min_def]
  · rw [h.2.1]
    norm_num

/-- C8, counterexample: in the sparse-data fallback the markup-tier shift for
markup 40 is the plain −15 of line 134, not the no-data branch's
−(15 + productIdSum % 5): with productId "C" (sum 67, 67 % 5 = 2) the code
returns 25.9 while the claimed formula gives 24.5. -/
theorem claim_C8_counterexample :
    ProbabilityCalculator._calculateFallbackProbability sparseStore 40 "C" "A" ≠
      .ok ((50 + (((charSum "C" + charSum "A") % 20 : ℕ) : ℚ) - 10 -
            (15 + ((charSum "C" % 5 : ℕ) : ℚ))) * (0.7 : ℚ) +
           ((successCount [offerM100] : ℚ) /
              (([offerM100] : List HistoricalOffer).length : ℚ) * 100) *
             (0.3 : ℚ)) := by
  have hC : charSum "C" = 67 := rfl
  have hA : charSum "A" = 65 := rfl
  norm_num [ProbabilityCalculator._calculateFallbackProbability, sparseStore,
    emptyStore, offerM100, hC, hA, ProbabilityCalculator.similarOffers,
    ProbabilityCalculator.SIMILAR_MARKUP_THRESHOLD, List.filter, successCount]

/-- C8, amended: in the sparse-data fallback the pseudo-score is 50 plus the
combined id character sums modulo 20 offset by −10, shifted by the plain
constants −15 / −5 / +5 / +10 (without the `% 5` addend of the no-data
branch), and the result blends 70% of it with 30% of the overall success rate
of the full combined history. -/
theorem claim_C8_amended (s : FStore) (markup : ℚ) (productId customerNr : String)
    (lp lc : List HistoricalOffer) (B : ℚ)
    (hp : s.probProductHistory productId = .ok lp)
    (hc : s.probCustomerHistory customerNr = .ok lc)
    (hne : lp ++ lc ≠ [])
    (hsparse : (ProbabilityCalculator.similarOffers (lp ++ lc) markup
      (ProbabilityCalculator.SIMILAR_MARKUP_THRESHOLD * 2)).length < 3)
    (hB : B = 50 + ((((charSum productId + charSum customerNr) % 20 : ℕ) : ℚ) - 10)) :
    ProbabilityCalculator._calculateFallbackProbability s markup productId customerNr =
      .ok ((if markup > 35 then B - 15
            else if markup > 25 then B - 5
            else if markup < 15 then B + 5
            else if markup < 10 then B + 10
            else B) * (0.7 : ℚ) +
           ((successCount (lp ++ lc) : ℚ) / ((lp ++ lc).length : ℚ) * 100) *
             (0.3 : ℚ)) := by
  subst hB
  unfold ProbabilityCalculator._calculateFallbackProbability
  rw [hp, hc]
  dsimp only
  have h0 : ¬ (lp ++ lc).length = 0 := fun hc' => hne (List.length_eq_zero.mp hc')
  rw [if_neg h0, if_pos hsparse, if_pos (Nat.pos_of_ne_zero h0)]

/-- C8, witness: product history `[offerM100]`, empty customer history,
markup 40 — the amended formula evaluates to 25.9. -/
theorem claim_C8_witness :
    ProbabilityCalculator._calculateFallbackProbability sparseStore 40 "C" "A" =
      .ok (259 / 10) := by
  have hC : charSum "C" = 67 := rfl
  have hA : charSum "A" = 65 := rfl
  have h := claim_C8_amended sparseStore 40 "C" "A" [offerM100] []
    (50 + ((((charSum "C" + charSum "A") % 20 : ℕ) : ℚ) - 10)) rfl rfl
    (List.cons_ne_nil _ _)
    (by norm_num [ProbabilityCalculator.similarOffers,
      ProbabilityCalculator.SIMILAR_MARKUP_THRESHOLD, List.filter, offerM100])
    rfl
  rw [h]
  norm_num [hC, hA, successCount, List.filter, offerM100]

/-- C10: for every markup below 10 both fallback pseudo-score computations
apply the markup<15 shift — +(5 + sum % 5) in the no-data branch and +5 in
the sparse-data branch — because the markup<15 test precedes the markup<10
test in the if/else chain, making the markup<10 tier unreachable. -/
theorem claim_C10 (s : FStore) (markup : ℚ) (productId customerNr : String)
    (hm : markup < 10) :
    (s.probProductHistory productId = .ok [] →
     s.probCustomerHistory customerNr = .ok [] →
     ProbabilityCalculator._calculateFallbackProbability s markup productId
         customerNr =
       .ok (min 85 (max 15 (50 + (((charSum productId % 25 : ℕ) : ℚ) - 12) +
             (5 + ((charSum productId % 5 : ℕ) : ℚ)))))) ∧
    (∀ lp lc, s.probProductHistory productId = .ok lp →
     s.probCustomerHistory customerNr = .ok lc → lp ++ lc ≠ [] →
     (ProbabilityCalculator.similarOffers (lp ++ lc) markup
       (ProbabilityCalculator.SIMILAR_MARKUP_THRESHOLD * 2)).length < 3 →
     ProbabilityCalculator._calculateFallbackProbability s markup productId
         customerNr =
       .ok ((50 + ((((charSum productId + charSum customerNr) % 20 : ℕ) : ℚ) - 10) +
              5) * (0.7 : ℚ) +
            ((successCount (lp ++ lc) : ℚ) / ((lp ++ lc).length : ℚ) * 100) *
              (0.3 : ℚ))) := by
  have h35 : ¬ markup > 35 := by linarith
  have h25 : ¬ markup > 25 := by linarith
  have h15 : markup < 15 := by linarith
  constructor
  · intro hp hc
    unfold ProbabilityCalculator._calculateFallbackProbability
    rw [hp, hc]
    dsimp only
    rw [if_pos (by rfl), if_neg h35, if_neg h25, if_pos h15]
  · intro lp lc hp hc hne hsparse
    unfold ProbabilityCalculator._calculateFallbackProbability
    rw [hp, hc]
    dsimp only
    have h0 : ¬ (lp ++ lc).length = 0 := fun hc' => hne (List.length_eq_zero.mp hc')
    rw [if_neg h0, if_pos hsparse, if_neg h35, if_neg h25, if_pos h15,
      if_pos (Nat.pos_of_ne_zero h0)]

/-- C10, witness: at markup 5 the no-data branch gives 62 for productId "C"
(50 + (67%25 − 12) + (5 + 67%5) = 62, the +5-tier shift, not +10), and the
sparse branch gives 39.9 ((52 + 5)·0.7). -/
theorem claim_C10_witness :
    ProbabilityCalculator._calculateFallbackProbability emptyStore 5 "C" "A" =
      .ok 62 ∧
    ProbabilityCalculator._calculateFallbackProbability sparseStore 5 "C" "A" =
      .ok (399 / 10) := by
  have hC : charSum "C" = 67 := rfl
  have hA : charSum "A" = 65 := rfl
  constructor
  · have h := (claim_C10 emptyStore 5 "C" "A" (by norm_num)).1 rfl rfl
    rw [h]
    norm_num [hC, min_def, max_def]
  · have h := (claim_C10 sparseStore 5 "C" "A" (by norm_num)).2 [offerM100] [] rfl rfl
      (List.cons_ne_nil _ _)
      (by norm_num [ProbabilityCalculator.similarOffers,
        ProbabilityCalculator.SIMILAR_MARKUP_THRESHOLD, List.filter, offerM100])
    rw [h]
    norm_num [hC, hA, successCount, List.filter, offerM100]

/-- C9: the data-recency sub-algorithm returns 0 when no record carries a
date; it is never negative; a history whose records are all dated exactly 365
days before the clock scores exactly 0; and with at least one dated record it
returns `max(0, 100 − avgAgeDays/365·100)` over the average age in days of
the dated records. -/
theorem claim_C9 (now : ℚ) (history : List HistoricalOffer) :
    ((∀ o ∈ history, o.encodingDate = none) →
      ReliabilityRepository._calculateDataRecency now history = 0) ∧
    0 ≤ ReliabilityRepository._calculateDataRecency now history ∧
    (history ≠ [] →
      (∀ o ∈ history, o.encodingDate = some (now - 365 * (1000 * 60 * 60 * 24))) →
      ReliabilityRepository._calculateDataRecency now history = 0) ∧
    (∀ dated, dated = history.filter (fun o => o.encodingDate.isSome) → dated ≠ [] →
      ReliabilityRepository._calculateDataRecency now history =
        max 0 (100 - ((dated.filterMap fun o =>
            o.encodingDate.map fun t => (now - t) / (1000 * 60 * 60 * 24)).sum /
            (dated.length : ℚ)) / 365 * 100)) := by
  refine ⟨?_, ?_, ?_, ?_⟩
  · intro h
    unfold ReliabilityRepository._calculateDataRecency
    by_cases hl : history.length = 0
    · rw [if_pos hl]
    · rw [if_neg hl]
      dsimp only
      have hf : (history.filter fun o => o.encodingDate.isSome) = [] :=
        List.filter_eq_nil_iff.mpr fun o ho => by simp [h o ho]
      rw [hf]
      rfl
  · unfold ReliabilityRepository._calculateDataRecency
    dsimp only
    split_ifs <;> first | exact le_max_left _ _ | norm_num
  · intro hne h
    unfold ReliabilityRepository._calculateDataRecency
    have hl : ¬ history.length = 0 := fun hc => hne (List.length_eq_zero.mp hc)
    rw [if_neg hl]
    dsimp only
    have hf : (history.filter fun o => o.encodingDate.isSome) = history :=
      List.filter_eq_self.mpr fun o ho => by simp [h o ho]
    rw [hf, if_neg hl]
    have hages : (history.filterMap fun o =>
        o.encodingDate.map fun t => (now - t) / (1000 * 60 * 60 * 24)) =
        List.replicate history.length 365 := by
      rw [List.eq_replicate_iff]
      refine ⟨length_filterMap_ages now history fun o ho => by simp [h o ho], ?_⟩
      intro b hb
      obtain ⟨o, ho, hfo⟩ := List.mem_filterMap.mp hb
      rw [h o ho] at hfo
      simp only [Option.map_some', Option.some.injEq] at hfo
      rw [← hfo]
      norm_num
    rw [hages]
    rw [if_neg (by rw [List.length_replicate]; exact hl)]
    rw [List.sum_replicate, List.length_replicate, nsmul_eq_mul,
      ReliabilityRepository.MAX_DAYS_FOR_RECENT_DATA]
    have hq : (history.length : ℚ) ≠ 0 := fun hc => hl (by exact_mod_cast hc)
    rw [mul_div_cancel_left₀ _ hq]
    norm_num
  · intro dated hd hne
    subst hd
    unfold ReliabilityRepository._calculateDataRecency
    have hh : history ≠ [] := fun h0 => hne (by rw [h0]; rfl)
    have hl : ¬ history.length = 0 := fun hc => hh (List.length_eq_zero.mp hc)
    rw [if_neg hl]
    dsimp only
    have hlf : ¬ (history.filter fun o => o.encodingDate.isSome).length = 0 :=
      fun hc => hne (List.length_eq_zero.mp hc)
    rw [if_neg hlf]
    have hages := length_filterMap_ages now
      (history.filter fun o => o.encodingDate.isSome)
      (fun o ho => (List.mem_filter.mp ho).2)
    rw [if_neg (by rw [hages]; exact hlf), hages,
      ReliabilityRepository.MAX_DAYS_FOR_RECENT_DATA]

/-- C9, witness: one record dated exactly 365 days before the clock scores
exactly 0. -/
theorem claim_C9_witness :
    ReliabilityRepository._calculateDataRecency (365 * (1000 * 60 * 60 * 24))
      [offerD0] = 0 := by
  refine (claim_C9 (365 * (1000 * 60 * 60 * 24)) [offerD0]).2.2.1
    (List.cons_ne_nil _ _) ?_
  intro o ho
  have : o = offerD0 := by simpa using ho
  subst this
  show some 0 = some _
  norm_num

theorem jsRound_bounds (x : ℚ) (h0 : 0 ≤ x) (h1 : x ≤ 100) :
    0 ≤ jsRound x ∧ jsRound x ≤ 100 := by
  unfold jsRound
  constructor
  · exact Int.le_floor.mpr (by push_cast; linarith)
  · have h2 : ⌊x + 1 / 2⌋ < 101 := Int.floor_lt.mpr (by push_cast; linarith)
    omega

theorem toFixed1_clamp_bounds (m : ℚ) :
    1 ≤ toFixed1 (max SuggestedMarkupRepository.MIN_MARKUP
        (min SuggestedMarkupRepository.MAX_MARKUP m)) ∧
    toFixed1 (max SuggestedMarkupRepository.MIN_MARKUP
        (min SuggestedMarkupRepository.MAX_MARKUP m)) ≤ 1000 := by
  unfold toFixed1 jsRound SuggestedMarkupRepository.MIN_MARKUP
    SuggestedMarkupRepository.MAX_MARKUP
  set x := max (1 : ℚ) (min 1000 m)
  have hx1 : 1 ≤ x := le_max_left _ _
  have hx2 : x ≤ 1000 := max_le (by norm_num) (min_le_left _ _)
  have hfl : (10 : ℤ) ≤ ⌊x * 10 + 1 / 2⌋ := Int.le_floor.mpr (by push_cast; linarith)
  have hfu : ⌊x * 10 + 1 / 2⌋ < 10001 := Int.floor_lt.mpr (by push_cast; linarith)
  constructor
  · rw [le_div_iff (by norm_num : (0 : ℚ) < 10)]
    have h3 : ((10 : ℤ) : ℚ) ≤ ((⌊x * 10 + 1 / 2⌋ : ℤ) : ℚ) := by exact_mod_cast hfl
    linarith
  · rw [div_le_iff (by norm_num : (0 : ℚ) < 10)]
    have h3 : ((⌊x * 10 + 1 / 2⌋ : ℤ) : ℚ) ≤ ((10000 : ℤ) : ℚ) := by
      exact_mod_cast (by omega : ⌊x * 10 + 1 / 2⌋ ≤ 10000)
    push_cast at h3
    linarith

theorem ages_sum_nonneg (now : ℚ) (l : List HistoricalOffer)
    (hd : ∀ o ∈ l, ∀ t, o.encodingDate = some t → t ≤ now) :
    0 ≤ (l.filterMap fun o =>
      o.encodingDate.map fun t => (now - t) / (1000 * 60 * 60 * 24)).sum := by
  apply List.sum_nonneg
  intro a ha
  obtain ⟨o, ho, hfo⟩ := List.mem_filterMap.mp ha
  obtain ⟨t, ht, hat⟩ := Option.map_eq_some'.mp hfo
  rw [← hat]
  have := hd o ho t ht
  have h24 : (0 : ℚ) < 1000 * 60 * 60 * 24 := by norm_num
  exact div_nonneg (by linarith) (le_of_lt h24)

theorem dataRecency_bounds (now : ℚ) (history : List HistoricalOffer)
    (hd : ∀ o ∈ history, ∀ t, o.encodingDate = some t → t ≤ now) :
    0 ≤ ReliabilityRepository._calculateDataRecency now history ∧
    ReliabilityRepository._calculateDataRecency now history ≤ 100 := by
  unfold ReliabilityRepository._calculateDataRecency
    ReliabilityRepository.MAX_DAYS_FOR_RECENT_DATA
  dsimp only
  split_ifs with h1 h2 h3
  · norm_num
  · norm_num
  · norm_num
  · refine ⟨le_max_left _ _, max_le (by norm_num) ?_⟩
    have hsum := ages_sum_nonneg now (history.filter fun o => o.encodingDate.isSome)
      (fun o ho t ht => hd o (List.mem_filter.mp ho).1 t ht)
    have key : 0 ≤ (List.filterMap (fun o =>
          Option.map (fun t => (now - t) / (1000 * 60 * 60 * 24)) o.encodingDate)
          (List.filter (fun o => o.encodingDate.isSome) history)).sum /
        ((List.filterMap (fun o =>
          Option.map (fun t => (now - t) / (1000 * 60 * 60 * 24)) o.encodingDate)
          (List.filter (fun o => o.encodingDate.isSome) history)).length : ℚ) /
        365 * 100 :=
      mul_nonneg (div_nonneg (div_nonneg hsum (by positivity)) (by norm_num))
        (by norm_num)
    linarith

theorem dataConsistency_bounds (jsSqrt : ℚ → ℚ) (hs : ∀ q, 0 ≤ jsSqrt q)
    (history : List HistoricalOffer) (c : ℚ)
    (h : ReliabilityRepository._calculateDataConsistency jsSqrt history = some c) :
    0 ≤ c ∧ c ≤ 100 := by
  unfold ReliabilityRepository._calculateDataConsistency at h
  dsimp only at h
  by_cases h1 : history.length < 2
  · rw [if_pos h1] at h
    injection h with h
    subst h
    exact ⟨le_refl 0, by norm_num⟩
  rw [if_neg h1] at h
  by_cases h2 : (List.filterMap (fun o => o.markup) history).length < 2
  · rw [if_pos h2] at h
    injection h with h
    subst h
    exact ⟨le_refl 0, by norm_num⟩
  rw [if_neg h2] at h
  by_cases h3 : (List.filterMap (fun o => o.markup) history).sum /
      ((List.filterMap (fun o => o.markup) history).length : ℚ) = 0
  · rw [if_pos h3] at h
    by_cases h4 : (List.map (fun m => (m - (List.filterMap (fun o => o.markup)
          history).sum / ((List.filterMap (fun o => o.markup) history).length : ℚ)) ^ 2)
        (List.filterMap (fun o => o.markup) history)).sum /
        ((List.filterMap (fun o => o.markup) history).length : ℚ) = 0
    · rw [if_pos h4] at h
      exact absurd h (fun hc => Option.noConfusion hc)
    · rw [if_neg h4] at h
      injection h with h
      subst h
      exact ⟨le_refl 0, by norm_num⟩
  · rw [if_neg h3] at h
    injection h with h
    subst h
    refine ⟨le_max_left _ _, max_le (by norm_num) ?_⟩
    have key : (0 : ℚ) ≤ jsSqrt ((List.map
          (fun m => (m - (List.filterMap (fun o => o.markup) history).sum /
            ((List.filterMap (fun o => o.markup) history).length : ℚ)) ^ 2)
          (List.filterMap (fun o => o.markup) history)).sum /
          ((List.filterMap (fun o => o.markup) history).length : ℚ)) /
        |(List.filterMap (fun o => o.markup) history).sum /
          ((List.filterMap (fun o => o.markup) history).length : ℚ)| :=
      div_nonneg (hs _) (abs_nonneg _)
    linarith

theorem minmax_bounds (E : ℚ) : 0 ≤ min 85 (max 15 E) ∧ min 85 (max 15 E) ≤ 100 :=
  ⟨le_trans (by norm_num) (le_min (by norm_num) (le_max_left _ _)),
   le_trans (min_le_left _ _) (by norm_num)⟩

theorem tier_bounds (markup B : ℚ) (hB0 : 40 ≤ B) (hB1 : B < 60) :
    25 ≤ (if markup > 35 then B - 15 else if markup > 25 then B - 5
          else if markup < 15 then B + 5 else if markup < 10 then B + 10 else B) ∧
    (if markup > 35 then B - 15 else if markup > 25 then B - 5
     else if markup < 15 then B + 5 else if markup < 10 then B + 10 else B) ≤ 70 := by
  split_ifs <;> constructor <;> linarith

theorem fallbackProbability_bounds (s : FStore) (markup : ℚ)
    (productId customerNr : String) (v : ℚ)
    (h : ProbabilityCalculator._calculateFallbackProbability s markup productId
      customerNr = .ok v) : 0 ≤ v ∧ v ≤ 100 := by
  unfold ProbabilityCalculator._calculateFallbackProbability at h
  cases hpp : s.probProductHistory productId with
  | error e => rw [hpp] at h; exact absurd h (fun hc => Except.noConfusion hc)
  | ok lp =>
  rw [hpp] at h
  cases hcc : s.probCustomerHistory customerNr with
  | error e => rw [hcc] at h; exact absurd h (fun hc => Except.noConfusion hc)
  | ok lc =>
  rw [hcc] at h
  dsimp only at h
  by_cases hC0 : (lp ++ lc).length = 0
  · rw [if_pos hC0] at h
    injection h with h
    subst h
    exact minmax_bounds _
  · rw [if_neg hC0] at h
    by_cases hC1 : (ProbabilityCalculator.similarOffers (lp ++ lc) markup
        (ProbabilityCalculator.SIMILAR_MARKUP_THRESHOLD * 2)).length < 3
    · rw [if_pos hC1] at h
      by_cases hC2 : (lp ++ lc).length > 0
      · rw [if_pos hC2] at h
        injection h with h
        subst h
        have m20 : (((charSum productId + charSum customerNr) % 20 : ℕ) : ℚ) < 20 := by
          exact_mod_cast Nat.mod_lt _ (by norm_num)
        have m20n : (0 : ℚ) ≤
            (((charSum productId + charSum customerNr) % 20 : ℕ) : ℚ) := by positivity
        have g0 : (0 : ℚ) ≤
            (successCount (lp ++ lc) : ℚ) / ((lp ++ lc).length : ℚ) * 100 :=
          ratio100_nonneg _ _
        have g1 : (successCount (lp ++ lc) : ℚ) / ((lp ++ lc).length : ℚ) * 100 ≤ 100 :=
          ratio100_le_100 _ _ (successCount_le_length _)
        have hT := tier_bounds markup
          (50 + ((((charSum productId + charSum customerNr) % 20 : ℕ) : ℚ) - 10))
          (by linarith) (by linarith)
        constructor <;> linarith [hT.1, hT.2]
      · rw [if_neg hC2] at h
        injection h with h
        subst h
        exact minmax_bounds _
    · rw [if_neg hC1] at h
      injection h with h
      subst h
      exact ⟨ratio100_nonneg _ _, ratio100_le_100 _ _ (successCount_le_length _)⟩

theorem successProbability_ok_bounds (s : FStore) (markup : ℚ)
    (productId customerNr : String) (quantity purchasePrice rate v : ℚ)
    (h : ProbabilityCalculator._calculateSuccessProbability s markup productId
      customerNr quantity purchasePrice rate = .ok v) : 0 ≤ v ∧ v ≤ 100 := by
  unfold ProbabilityCalculator._calculateSuccessProbability at h
  cases hpp : s.probProductCustomerHistory customerNr productId with
  | error e => rw [hpp] at h; exact absurd h (fun hc => Except.noConfusion hc)
  | ok l =>
  rw [hpp] at h
  dsimp only at h
  split_ifs at h
  · exact fallbackProbability_bounds _ _ _ _ _ h
  · exact fallbackProbability_bounds _ _ _ _ _ h
  · injection h with h
    subst h
    exact ⟨ratio100_nonneg _ _, ratio100_le_100 _ _ (successCount_le_length _)⟩

theorem muBody_markup_shape (s : FStore) (customerNr productId : String)
    (quantity purchasePrice rate : ℚ) (r : SuggestedMarkupRepository.MarkupResult)
    (h : SuggestedMarkupRepository.muBody s customerNr productId quantity
      purchasePrice rate = .ok r) :
    ∃ m, r.suggestedMarkup = toFixed1 (max SuggestedMarkupRepository.MIN_MARKUP
      (min SuggestedMarkupRepository.MAX_MARKUP m)) := by
  unfold SuggestedMarkupRepository.muBody at h
  split at h
  · exact absurd h (fun hc => Except.noConfusion hc)
  · split_ifs at h
    · try dsimp only at h
      split at h
      · exact absurd h (fun hc => Except.noConfusion hc)
      · try dsimp only at h
        split at h
        · exact absurd h (fun hc => Except.noConfusion hc)
        · injection h with h
          subst h
          exact ⟨_, rfl⟩
    · try dsimp only at h
      split at h
      · exact absurd h (fun hc => Except.noConfusion hc)
      · try dsimp only at h
        split at h
        · exact absurd h (fun hc => Except.noConfusion hc)
        · try dsimp only at h
          split at h
          · exact absurd h (fun hc => Except.noConfusion hc)
          · injection h with h
            subst h
            exact ⟨_, rfl⟩

theorem relFactors_bounds (jsSqrt : ℚ → ℚ) (hs : ∀ q, 0 ≤ jsSqrt q) (s : FStore)
    (customerNr productId : String) (now rand : ℚ) (hr0 : 0 ≤ rand) (hr1 : rand < 1)
    (hd1 : ∀ l, s.relProductCustomerHistory customerNr productId = .ok l →
      ∀ o ∈ l, ∀ t, o.encodingDate = some t → t ≤ now)
    (hd2 : ∀ l, s.relProductHistory productId = .ok l →
      ∀ o ∈ l, ∀ t, o.encodingDate = some t → t ≤ now)
    (hd3 : ∀ l, s.relCustomerHistory customerNr = .ok l →
      ∀ o ∈ l, ∀ t, o.encodingDate = some t → t ≤ now)
    (dh dr fb : ℚ) (dc : Option ℚ)
    (h : ReliabilityRepository.relFactors jsSqrt s customerNr productId now rand =
      .ok (dh, dr, dc, fb)) :
    (0 ≤ dh ∧ dh ≤ 100) ∧ (0 ≤ dr ∧ dr ≤ 100) ∧
    (∀ c, dc = some c → 0 ≤ c ∧ c ≤ 100) ∧ (0 ≤ fb ∧ fb ≤ 100) := by
  unfold ReliabilityRepository.relFactors at h
  cases hq1 : s.relProductCustomerHistory customerNr productId with
  | error e => rw [hq1] at h; exact absurd h (fun hc => Except.noConfusion hc)
  | ok pairH =>
  rw [hq1] at h
  dsimp only at h
  by_cases hl1 : pairH.length = 0
  · rw [if_pos hl1] at h
    cases hq2 : s.relProductHistory productId with
    | error e => rw [hq2] at h; exact absurd h (fun hc => Except.noConfusion hc)
    | ok prodH =>
    rw [hq2] at h
    dsimp only at h
    by_cases hl2 : prodH.length > 0
    · rw [if_pos hl2] at h
      injection h with h
      simp only [Prod.mk.injEq] at h
      obtain ⟨rfl, rfl, rfl, rfl⟩ := h
      have hlen : (0 : ℚ) ≤ (prodH.length : ℚ) := by positivity
      refine ⟨⟨le_refl 0, by norm_num⟩,
        dataRecency_bounds now prodH (hd2 prodH hq2),
        fun c hc => dataConsistency_bounds jsSqrt hs prodH c hc,
        le_trans (by norm_num) (le_max_left _ _),
        max_le (by norm_num) (by linarith)⟩
    · rw [if_neg hl2] at h
      cases hq3 : s.relCustomerHistory customerNr with
      | error e => rw [hq3] at h; exact absurd h (fun hc => Except.noConfusion hc)
      | ok custH =>
      rw [hq3] at h
      dsimp only at h
      by_cases hl3 : custH.length > 0
      · rw [if_pos hl3] at h
        injection h with h
        simp only [Prod.mk.injEq] at h
        obtain ⟨rfl, rfl, rfl, rfl⟩ := h
        obtain ⟨hr2, hr3⟩ := dataRecency_bounds now custH (hd3 custH hq3)
        have hf0 : (0 : ℤ) ≤ ⌊rand * 10⌋ :=
          Int.le_floor.mpr (by push_cast; exact mul_nonneg hr0 (by norm_num))
        have hf1 : ⌊rand * 10⌋ < 10 := Int.floor_lt.mpr (by push_cast; linarith)
        have hc0 : (0 : ℚ) ≤ ((⌊rand * 10⌋ : ℤ) : ℚ) := by exact_mod_cast hf0
        have hc9 : ((⌊rand * 10⌋ : ℤ) : ℚ) ≤ 9 := by
          exact_mod_cast (by omega : ⌊rand * 10⌋ ≤ 9)
        refine ⟨⟨le_refl 0, by norm_num⟩, ⟨by linarith, by linarith⟩, ?_,
          by linarith, by linarith⟩
        intro c hc
        obtain ⟨c0, hcc0, rfl⟩ := Option.map_eq_some'.mp hc
        obtain ⟨ha, hb⟩ := dataConsistency_bounds jsSqrt hs custH c0 hcc0
        constructor <;> linarith
      · rw [if_neg hl3] at h
        try dsimp only at h
        injection h with h
        simp only [Prod.mk.injEq] at h
        obtain ⟨rfl, rfl, rfl, rfl⟩ := h
        have hm15 : charSum productId % 15 < 15 := Nat.mod_lt _ (by norm_num)
        have hm20 : charSum productId % 20 < 20 := Nat.mod_lt _ (by norm_num)
        refine ⟨⟨by positivity, ?_⟩, ⟨by positivity, ?_⟩, ?_, by norm_num, by norm_num⟩
        · exact_mod_cast (by omega : (5 + charSum productId % 15 : ℕ) ≤ 100)
        · exact_mod_cast (by omega : (10 + charSum productId % 20 : ℕ) ≤ 100)
        · intro c hc
          simp only [Option.some.injEq] at hc
          subst hc
          constructor
          · positivity
          · exact_mod_cast (by omega : (5 + charSum productId % 20 : ℕ) ≤ 100)
  · rw [if_neg hl1] at h
    injection h with h
    simp only [Prod.mk.injEq] at h
    obtain ⟨rfl, rfl, rfl, rfl⟩ := h
    refine ⟨⟨le_min (by norm_num) (by positivity), min_le_left _ _⟩,
      dataRecency_bounds now pairH (hd1 pairH hq1),
      fun c hc => dataConsistency_bounds jsSqrt hs pairH c hc,
      by norm_num, by norm_num⟩

/-- C3, counterexample: outputs are not bounded for every store state — a
pair record dated 365 days in the future of the clock makes the dataRecency
sub-factor 200, outside [0,100] (the recency formula has a lower clamp but no
upper clamp). -/
theorem claim_C3_counterexample :
    ¬ ((ReliabilityRepository.calculateProductReliability ratSqrt futStore "C" "P" 0
        0).reliabilityFactors.dataRecency ≤ 100) := by
  have hev : (ReliabilityRepository.calculateProductReliability ratSqrt futStore "C"
      "P" 0 0).reliabilityFactors.dataRecency = 200 := by
    norm_num [ReliabilityRepository.calculateProductReliability,
      ReliabilityRepository.relFactors, futStore, emptyStore,
      ReliabilityRepository._calculateDataRecency,
      ReliabilityRepository._calculateDataConsistency,
      ReliabilityRepository.MAX_DAYS_FOR_RECENT_DATA, offerFut, List.filter,
      List.filterMap]
  rw [hev]
  norm_num

/-- C3, amended: the bounds hold with two code-forced provisos: no stored
record may be dated after the evaluation clock (the recency score has no
upper clamp), and the dataConsistency factor and overall reliability are
bounded whenever they are numbers (both are NaN when at least two valid
markups have mean 0 and variance 0).  Under those provisos — and with the
`Math.random` draw in [0,1) and any nonnegative square root —
suggestedMarkup ∈ [1,1000], a returned probability ∈ [0,100], and every
reliability sub-factor and the reliability score ∈ [0,100]. -/
theorem claim_C3_amended (jsSqrt : ℚ → ℚ) (hs : ∀ q, 0 ≤ jsSqrt q) (s : FStore)
    (customerNr productId : String) (now rand markup quantity purchasePrice rate : ℚ)
    (hr0 : 0 ≤ rand) (hr1 : rand < 1)
    (hd1 : ∀ l, s.relProductCustomerHistory customerNr productId = .ok l →
      ∀ o ∈ l, ∀ t, o.encodingDate = some t → t ≤ now)
    (hd2 : ∀ l, s.relProductHistory productId = .ok l →
      ∀ o ∈ l, ∀ t, o.encodingDate = some t → t ≤ now)
    (hd3 : ∀ l, s.relCustomerHistory customerNr = .ok l →
      ∀ o ∈ l, ∀ t, o.encodingDate = some t → t ≤ now) :
    (1 ≤ (SuggestedMarkupRepository.calculateSuggestedMarkup s customerNr productId
        quantity purchasePrice rate).suggestedMarkup ∧
     (SuggestedMarkupRepository.calculateSuggestedMarkup s customerNr productId
        quantity purchasePrice rate).suggestedMarkup ≤ 1000) ∧
    (∀ v, ProbabilityCalculator.calculateSuccessProbability s customerNr productId
        markup quantity purchasePrice rate = .ok v → 0 ≤ v ∧ v ≤ 100) ∧
    (0 ≤ (ReliabilityRepository.calculateProductReliability jsSqrt s customerNr
        productId now rand).reliabilityFactors.directHistory ∧
     (ReliabilityRepository.calculateProductReliability jsSqrt s customerNr
        productId now rand).reliabilityFactors.directHistory ≤ 100) ∧
    (0 ≤ (ReliabilityRepository.calculateProductReliability jsSqrt s customerNr
        productId now rand).reliabilityFactors.dataRecency ∧
     (ReliabilityRepository.calculateProductReliability jsSqrt s customerNr
        productId now rand).reliabilityFactors.dataRecency ≤ 100) ∧
    (∀ c, (ReliabilityRepository.calculateProductReliability jsSqrt s customerNr
        productId now rand).reliabilityFactors.dataConsistency = some c →
      0 ≤ c ∧ c ≤ 100) ∧
    (0 ≤ (ReliabilityRepository.calculateProductReliability jsSqrt s customerNr
        productId now rand).reliabilityFactors.fallbacksUsed ∧
     (ReliabilityRepository.calculateProductReliability jsSqrt s customerNr
        productId now rand).reliabilityFactors.fallbacksUsed ≤ 100) ∧
    (∀ z, (ReliabilityRepository.calculateProductReliability jsSqrt s customerNr
        productId now rand).reliability = some z → 0 ≤ z ∧ z ≤ 100) := by
  refine ⟨?_, ?_, ?_⟩
  · cases hmu : SuggestedMarkupRepository.muBody s customerNr productId quantity
        purchasePrice rate with
    | error e =>
      have hcalc : SuggestedMarkupRepository.calculateSuggestedMarkup s customerNr
          productId quantity purchasePrice rate =
          SuggestedMarkupRepository.defaultMarkupResult := by
        unfold SuggestedMarkupRepository.calculateSuggestedMarkup
        rw [hmu]
      rw [hcalc]
      norm_num [SuggestedMarkupRepository.defaultMarkupResult,
        SuggestedMarkupRepository.DEFAULT_MARKUP]
    | ok r =>
      have hcalc : SuggestedMarkupRepository.calculateSuggestedMarkup s customerNr
          productId quantity purchasePrice rate = r := by
        unfold SuggestedMarkupRepository.calculateSuggestedMarkup
        rw [hmu]
      rw [hcalc]
      obtain ⟨m, hm⟩ := muBody_markup_shape s customerNr productId quantity
        purchasePrice rate r hmu
      rw [hm]
      exact toFixed1_clamp_bounds m
  · intro v hv
    exact successProbability_ok_bounds s markup productId customerNr quantity
      purchasePrice rate v hv
  · cases hrf : ReliabilityRepository.relFactors jsSqrt s customerNr productId now
        rand with
    | error e =>
      have hcalc : ReliabilityRepository.calculateProductReliability jsSqrt s
          customerNr productId now rand =
          ReliabilityRepository.defaultReliabilityResult := by
        unfold ReliabilityRepository.calculateProductReliability
        rw [hrf]
      rw [hcalc]
      refine ⟨⟨by norm_num [ReliabilityRepository.defaultReliabilityResult],
        by norm_num [ReliabilityRepository.defaultReliabilityResult]⟩,
        ⟨by norm_num [ReliabilityRepository.defaultReliabilityResult],
        by norm_num [ReliabilityRepository.defaultReliabilityResult]⟩, ?_,
        ⟨by norm_num [ReliabilityRepository.defaultReliabilityResult],
        by norm_num [ReliabilityRepository.defaultReliabilityResult]⟩, ?_⟩
      · intro c hc
        simp only [ReliabilityRepository.defaultReliabilityResult,
          Option.some.injEq] at hc
        subst hc
        norm_num
      · intro z hz
        simp only [ReliabilityRepository.defaultReliabilityResult,
          Option.some.injEq] at hz
        subst hz
        norm_num
    | ok tup =>
      obtain ⟨dh, dr, dc, fb⟩ := tup
      have hb := relFactors_bounds jsSqrt hs s customerNr productId now rand hr0 hr1
        hd1 hd2 hd3 dh dr fb dc hrf
      have hcalc : ReliabilityRepository.calculateProductReliability jsSqrt s
          customerNr productId now rand =
          { reliability := dc.map fun c =>
              jsRound (dh * (0.7 : ℚ) + dr * (0.2 : ℚ) + c * (0.1 : ℚ))
            reliabilityFactors :=
              { directHistory := dh
                dataRecency := dr
                dataConsistency := dc
                fallbacksUsed := 100 - fb } } := by
        unfold ReliabilityRepository.calculateProductReliability
        rw [hrf]
      rw [hcalc]
      obtain ⟨⟨hdh0, hdh1⟩, ⟨hdr0, hdr1⟩, hdc, ⟨hfb0, hfb1⟩⟩ := hb
      refine ⟨⟨hdh0, hdh1⟩, ⟨hdr0, hdr1⟩, hdc, ⟨by linarith, by linarith⟩, ?_⟩
      intro z hz
      obtain ⟨c, hc, rfl⟩ := Option.map_eq_some'.mp hz
      obtain ⟨hc0, hc1⟩ := hdc c hc
      exact jsRound_bounds _ (by linarith) (by linarith)

/-- C3, witness: on the all-empty store with draw 0 the amended bounds hold
concretely. -/
theorem claim_C3_witness :
    (1 ≤ (SuggestedMarkupRepository.calculateSuggestedMarkup emptyStore "C" "P" 1 0
        1).suggestedMarkup ∧
     (SuggestedMarkupRepository.calculateSuggestedMarkup emptyStore "C" "P" 1 0
        1).suggestedMarkup ≤ 1000) ∧
    (0 ≤ (ReliabilityRepository.calculateProductReliability ratSqrt emptyStore "C"
        "P" 0 0).reliabilityFactors.dataRecency ∧
     (ReliabilityRepository.calculateProductReliability ratSqrt emptyStore "C" "P" 0
        0).reliabilityFactors.dataRecency ≤ 100) := by
  have hd : ∀ l, (Except.ok [] : FetchResult) = .ok l →
      ∀ o ∈ l, ∀ t, o.encodingDate = some t → t ≤ (0 : ℚ) := by
    intro l hl o ho
    cases hl
    exact absurd ho (List.not_mem_nil o)
  have h := claim_C3_amended ratSqrt ratSqrt_nonneg emptyStore "C" "P" 0 0 20 1 0 1
    (le_refl 0) (by norm_num) (fun l hl => hd l hl) (fun l hl => hd l hl)
    (fun l hl => hd l hl)
  exact ⟨h.1, h.2.2.2.1⟩
